import Mathlib

/-!
Shallow embedding of the Transaction Signing & Authentication subsystem of the
lighter-rust client (src/signer/ffi.rs, src/signer/mod.rs, src/signer/data.rs,
src/client/http.rs), together with theorems settling the specification claims.

Foreign-allocated strings returned by the native signing engine are modelled as
`Option CPtr`: `none` is a null pointer; a non-null pointer carries an identifier
(so releases can be counted) and the pointed-to string. A parser returns both its
Rust-level result and the list of pointer identifiers it passed to `libc::free`,
in call order.
-/

namespace Lighter

/-- Embeds the error enum `LighterError` (only the variants used by the signer
subsystem: `Signing`, `Generic`, `Config`). -/
inductive LighterError where
  | Signing (msg : String)
  | Generic (msg : String)
  | Config (msg : String)
deriving DecidableEq, Repr

/-- A non-null foreign pointer returned by the engine: an allocation identifier
plus the C-string contents it points to. -/
structure CPtr where
  id : Nat
  content : String
deriving DecidableEq, Repr

/-- Embeds the generated binding struct `StrOrErr` returned by `CreateAuthToken`:
two possibly-null heap strings. -/
structure StrOrErr where
  str_ : Option CPtr
  err : Option CPtr
deriving DecidableEq, Repr

/-- Embeds the generated binding struct `SignedTxResponse` returned by every
`Sign*` engine call: a primary `txInfo`, optional `txHash` and `messageToSign`,
and a possibly-null `err`. -/
structure SignedTxResponse where
  txInfo : Option CPtr
  txHash : Option CPtr
  messageToSign : Option CPtr
  err : Option CPtr
deriving DecidableEq, Repr

/-- The identifiers freed by `libc::free` on one optional pointer: one free for a
non-null pointer, none for a null one. -/
def freeOpt : Option CPtr → List Nat
  | none => []
  | some p => [p.id]

/-- The identifiers of all non-null fields of a `SignedTxResponse`; releasing
each foreign-allocated field exactly once means the freed list is a permutation
of this list. -/
def fieldIds (r : SignedTxResponse) : List Nat :=
  freeOpt r.err ++ freeOpt r.txInfo ++ freeOpt r.txHash ++ freeOpt r.messageToSign

/-- Embeds `FFISigner::parse_result` (src/signer/ffi.rs:385-405). Returns the
Rust `Result` together with the pointer identifiers freed, in order: on a
non-null `err` it frees `err` and then `str_` if non-null and fails with the
engine message; on null `err` and null `str_` it fails with "Null result"; on
success it extracts and frees `str_`. -/
def parse_result (r : StrOrErr) : Except LighterError String × List Nat :=
  match r.err with
  | some e => (Except.error (LighterError.Signing e.content), e.id :: freeOpt r.str_)
  | none =>
    match r.str_ with
    | none => (Except.error (LighterError.Signing "Null result"), [])
    | some s => (Except.ok s.content, [s.id])

/-- Embeds `FFISigner::parse_signed_tx_response` (src/signer/ffi.rs:407-441).
On a non-null `err` it frees `err`, then each non-null secondary field, and
fails with the engine message. On null `err` and null `txInfo` it returns the
"Null txInfo in result" error immediately — the source returns early without
freeing `txHash` or `messageToSign` on this path. On success it extracts
`txInfo` and frees every non-null field. -/
def parse_signed_tx_response (r : SignedTxResponse) : Except LighterError String × List Nat :=
  match r.err with
  | some e =>
    (Except.error (LighterError.Signing e.content),
      e.id :: (freeOpt r.txInfo ++ freeOpt r.txHash ++ freeOpt r.messageToSign))
  | none =>
    match r.txInfo with
    | none => (Except.error (LighterError.Signing "Null txInfo in result"), [])
    | some t => (Except.ok t.content, t.id :: (freeOpt r.txHash ++ freeOpt r.messageToSign))

/-- The release discipline claimed by the spec for a `SignedTxResponse`: the
freed identifiers are exactly the identifiers of the non-null fields, each
exactly once. -/
def releasesEachFieldOnce (r : SignedTxResponse) : Prop :=
  ((parse_signed_tx_response r).2).Perm (fieldIds r)

/-- Embeds the `AuthToken` struct (src/signer/ffi.rs:14-18): the bearer string
and the absolute expiration epoch in seconds. Timestamps are `Int`, matching the
source's `i64` epoch seconds. -/
structure AuthToken where
  token : String
  expiration : Int
deriving DecidableEq, Repr

/-- Embeds `AuthToken::is_expired` (src/signer/ffi.rs:21-23):
`Utc::now().timestamp() >= self.expiration`, with the current time passed
explicitly. -/
def AuthToken.is_expired (now : Int) (t : AuthToken) : Bool :=
  if t.expiration ≤ now then true else false

/-- The read-guard block of `FFISigner::get_auth_token` (src/signer/ffi.rs:233-243):
the cached token's string when a cached token exists and is not expired,
otherwise `none`. -/
def cachedValid (now : Int) (st : Option AuthToken) : Option String :=
  match st with
  | some t => if t.is_expired now then none else some t.token
  | none => none

/-- Embeds `FFISigner::create_auth_token_with_expiry` (src/signer/ffi.rs:257-271).
The engine's `CreateAuthToken` is a parameter from the requested deadline to the
`StrOrErr` it returns (the signer's api-key and account indices are fixed).
The missing deadline defaults to now + 10 minutes (600 seconds); the result is
decoded by `parse_result`; on success the stored expiration is the requested
deadline. Also returns the list of deadlines passed to engine calls. -/
def create_auth_token_with_expiry (engine : Int → StrOrErr) (now : Int)
    (deadline : Option Int) : Except LighterError AuthToken × List Int :=
  let d := deadline.getD (now + 600)
  match (parse_result (engine d)).1 with
  | Except.error e => (Except.error e, [d])
  | Except.ok token => (Except.ok { token := token, expiration := d }, [d])

/-- Embeds `FFISigner::get_auth_token` (src/signer/ffi.rs:232-255) as explicit
state passing over the `Option AuthToken` cache cell. Returns the Rust result,
the cache contents after the call, and the deadlines of the engine calls made.
A valid cached token is returned without touching the engine or the cell; on a
refresh failure the error propagates before the write lock is taken, so the
cell is unchanged; on success the new token is stored and returned. -/
def get_auth_token (engine : Int → StrOrErr) (now : Int) (st : Option AuthToken)
    (expiration_timestamp : Option Int) :
    Except LighterError String × Option AuthToken × List Int :=
  match cachedValid now st with
  | some token => (Except.ok token, st, [])
  | none =>
    match create_auth_token_with_expiry engine now expiration_timestamp with
    | (Except.error e, calls) => (Except.error e, st, calls)
    | (Except.ok nt, calls) => (Except.ok nt.token, some nt, calls)

/-- Whether the second character list begins with the first (helper for
substring search over `List Char`). -/
def starts_with_chars : List Char → List Char → Bool
  | [], _ => true
  | _ :: _, [] => false
  | a :: moreA, b :: moreB => a == b && starts_with_chars moreA moreB

/-- Embeds Rust's `str::contains(&str)` substring test over character lists. -/
def contains_sub (needle : List Char) : List Char → Bool
  | [] => needle.isEmpty
  | c :: rest => starts_with_chars needle (c :: rest) || contains_sub needle rest

/-- Embeds `trim_start_matches("0x")` from `FFISigner::new`
(src/signer/ffi.rs:47): repeatedly removes a leading `"0x"`. -/
def trim_start_matches_0x : List Char → List Char
  | '0' :: 'x' :: rest => trim_start_matches_0x rest
  | s => s

/-- Whether a character list contains a NUL character; `CString::new` fails
exactly when its input contains a NUL byte. -/
def hasNulChar (s : List Char) : Bool :=
  s.any (fun c => c.toNat == 0)

/-- Embeds Rust's `str::from_utf8` validity check over a byte list (bytes are
`Nat` values below 256): ASCII, two-, three- and four-byte sequences with the
standard continuation, overlong, surrogate and range restrictions. -/
def validUtf8 : List Nat → Bool
  | [] => true
  | b :: rest =>
    if b < 0x80 then validUtf8 rest
    else if b < 0xC2 then false
    else if b < 0xE0 then
      match rest with
      | c1 :: rest2 => decide (0x80 ≤ c1 ∧ c1 < 0xC0) && validUtf8 rest2
      | [] => false
    else if b < 0xF0 then
      match rest with
      | c1 :: c2 :: rest2 =>
        (if b == 0xE0 then decide (0xA0 ≤ c1 ∧ c1 < 0xC0)
         else if b == 0xED then decide (0x80 ≤ c1 ∧ c1 < 0xA0)
         else decide (0x80 ≤ c1 ∧ c1 < 0xC0)) &&
        decide (0x80 ≤ c2 ∧ c2 < 0xC0) && validUtf8 rest2
      | _ => false
    else if b < 0xF5 then
      match rest with
      | c1 :: c2 :: c3 :: rest2 =>
        (if b == 0xF0 then decide (0x90 ≤ c1 ∧ c1 < 0xC0)
         else if b == 0xF4 then decide (0x80 ≤ c1 ∧ c1 < 0x90)
         else decide (0x80 ≤ c1 ∧ c1 < 0xC0)) &&
        decide (0x80 ≤ c2 ∧ c2 < 0xC0) && decide (0x80 ≤ c3 ∧ c3 < 0xC0) &&
        validUtf8 rest2
      | _ => false
    else false

/-- Embeds the `FFISigner` struct fields fixed at construction
(src/signer/ffi.rs:27-37); the mutable `auth_token` cell is threaded explicitly
through `get_auth_token` instead. Strings are character lists so the `"0x"`
trimming and `"mainnet"` substring test are structural. -/
structure FFISignerState where
  url : List Char
  private_key : List Char
  chain_id : Int
  api_key_index : Int
  account_index : Int
deriving DecidableEq, Repr

/-- The marshalled arguments of the `CreateClient` engine call made by
`FFISigner::create_client` (src/signer/ffi.rs:280-286). -/
structure CreateClientCall where
  url : List Char
  private_key : List Char
  chain_id : Int
  api_key_index : Int
  account_index : Int
deriving DecidableEq, Repr

/-- Embeds `FFISigner::create_client` (src/signer/ffi.rs:273-296): marshals the
url and the cleaned key (each failing locally on an interior NUL), then calls
the engine, whose non-null result pointer is an error message. Returns the
result and the engine calls made. -/
def create_client (engine : CreateClientCall → Option String) (s : FFISignerState) :
    Except LighterError Unit × List CreateClientCall :=
  if hasNulChar s.url then (Except.error (LighterError.Signing "Invalid URL"), [])
  else if hasNulChar s.private_key then (Except.error (LighterError.Signing "Invalid key"), [])
  else
    let call : CreateClientCall :=
      { url := s.url, private_key := s.private_key, chain_id := s.chain_id,
        api_key_index := s.api_key_index, account_index := s.account_index }
    match engine call with
    | some errMsg => (Except.error (LighterError.Signing errMsg), [call])
    | none => (Except.ok (), [call])

/-- Embeds `FFISigner::new` (src/signer/ffi.rs:40-60): the chain id is 304 when
the url contains `"mainnet"` and 300 otherwise; the stored private key is the
configured key with every leading `"0x"` trimmed; then `create_client` runs
against the engine. Returns the constructed signer (or the construction error)
and the engine calls made. -/
def FFISigner.new (engine : CreateClientCall → Option String) (url : List Char)
    (private_key : List Char) (api_key_index account_index : Int) :
    Except LighterError FFISignerState × List CreateClientCall :=
  let chain_id : Int := if contains_sub ("mainnet".toList) url then 304 else 300
  let s : FFISignerState :=
    { url := url, private_key := trim_start_matches_0x private_key,
      chain_id := chain_id, api_key_index := api_key_index,
      account_index := account_index }
  match create_client engine s with
  | (Except.error e, calls) => (Except.error e, calls)
  | (Except.ok _, calls) => (Except.ok s, calls)

/-- Embeds the generated binding struct `CreateOrderTxReq` used by grouped
orders (src/signer/data.rs:59, field names as in the C header). -/
structure CreateOrderTxReq where
  MarketIndex : Int
  ClientOrderIndex : Int
  BaseAmount : Int
  Price : Int
  IsAsk : Nat
  «Type» : Nat
  TimeInForce : Nat
  ReduceOnly : Nat
  TriggerPrice : Int
  OrderExpiry : Int
deriving DecidableEq, Repr

/-- Embeds `ChangePubKeyData` (src/signer/data.rs:38-40). -/
structure ChangePubKeyData where
  new_pubk : List Char
deriving DecidableEq, Repr

/-- Embeds `CreateOrderData` (src/signer/data.rs:43-54). -/
structure CreateOrderData where
  market_index : Int
  client_order_index : Int
  base_amount : Int
  price : Int
  is_ask : Bool
  order_type : Nat
  time_in_force : Nat
  reduce_only : Bool
  trigger_price : Int
  order_expiry : Int
deriving DecidableEq, Repr

/-- Embeds `SignCreateGroupedOrdersData` (src/signer/data.rs:57-60); the
grouping type is the `u8` it is cast to at the boundary. -/
structure SignCreateGroupedOrdersData where
  grouping_type : Nat
  orders : List CreateOrderTxReq
deriving DecidableEq, Repr

/-- Embeds `SignCancelOrderData` (src/signer/data.rs:63-66). -/
structure SignCancelOrderData where
  market_index : Int
  order_index : Int
deriving DecidableEq, Repr

/-- Embeds `SignWithdrawData` (src/signer/data.rs:69-73). -/
structure SignWithdrawData where
  asset_index : Int
  route_type : Int
  amount : Nat
deriving DecidableEq, Repr

/-- Embeds `SignCancelAllOrdersData` (src/signer/data.rs:76-79). -/
structure SignCancelAllOrdersData where
  time_in_force : Nat
  time : Int
deriving DecidableEq, Repr

/-- Embeds `SignModifyOrderData` (src/signer/data.rs:82-88). -/
structure SignModifyOrderData where
  market_index : Int
  order_index : Int
  amount : Int
  price : Int
  trigger_price : Int
deriving DecidableEq, Repr

/-- Embeds `SignTransferData` (src/signer/data.rs:91-99); the memo is the
fixed 32-byte buffer `[u8; 32]`, modelled as a byte list. -/
structure SignTransferData where
  to_account_index : Int
  asset_index : Int
  from_route_type : Nat
  to_route_type : Nat
  amount : Int
  usdc_fee : Int
  memo : List Nat
deriving DecidableEq, Repr

/-- Embeds `SignCreatePublicPoolData` (src/signer/data.rs:102-106). -/
structure SignCreatePublicPoolData where
  operator_fee : Int
  initial_total_shares : Int
  min_operator_share_rate : Int
deriving DecidableEq, Repr

/-- Embeds `SignUpdatePublicPoolData` (src/signer/data.rs:109-114). -/
structure SignUpdatePublicPoolData where
  public_pool_index : Int
  status : Int
  operator_fee : Int
  min_operator_share_rate : Int
deriving DecidableEq, Repr

/-- Embeds `SignMintSharesData` (src/signer/data.rs:117-120). -/
structure SignMintSharesData where
  public_pool_index : Int
  share_amount : Int
deriving DecidableEq, Repr

/-- Embeds `SignBurnSharesData` (src/signer/data.rs:123-126). -/
structure SignBurnSharesData where
  public_pool_index : Int
  share_amount : Int
deriving DecidableEq, Repr

/-- Embeds `SignUpdateLeverageData` (src/signer/data.rs:129-133). -/
structure SignUpdateLeverageData where
  market_index : Int
  initial_margin_fraction : Int
  margin_mode : Int
deriving DecidableEq, Repr

/-- Embeds `SignUpdateMarginData` (src/signer/data.rs:136-140). -/
structure SignUpdateMarginData where
  market_index : Int
  usdc_amount : Int
  direction : Int
deriving DecidableEq, Repr

/-- Embeds the closed transaction-intent enum `TxData` (src/signer/data.rs:16-33),
one constructor per transaction kind. -/
inductive TxData where
  | ChangePubKey (data : ChangePubKeyData)
  | CreateOrder (data : CreateOrderData)
  | SignCreateGroupedOrders (data : SignCreateGroupedOrdersData)
  | SignCancelOrder (data : SignCancelOrderData)
  | SignWithdraw (data : SignWithdrawData)
  | SignCreateSubaccount
  | SignCancelAllOrders (data : SignCancelAllOrdersData)
  | SignModifyOrder (data : SignModifyOrderData)
  | SignTransfer (data : SignTransferData)
  | SignCreatePublicPool (data : SignCreatePublicPoolData)
  | SignUpdatePublicPool (data : SignUpdatePublicPoolData)
  | SignMintShares (data : SignMintSharesData)
  | SignBurnShares (data : SignBurnSharesData)
  | SignUpdateLeverage (data : SignUpdateLeverageData)
  | SignUpdateMargin (data : SignUpdateMarginData)
deriving DecidableEq, Repr

/-- The `as c_int` marshalling of a Rust `bool` at the engine boundary. -/
def c_int_of_bool (b : Bool) : Int :=
  if b then 1 else 0

/-- One native-engine invocation with its fully marshalled argument list, one
constructor per `ffisigner::Sign*` entry point called from
`FFISigner::get_tx_data` (src/signer/ffi.rs:62-227). Argument order matches
the source call sites; grouped orders carry the order list together with the
explicit count passed alongside the pointer. -/
inductive EngineCall where
  | SignChangePubKey (pubkey : List Char) (nonce api_key_index account_index : Int)
  | SignCreateOrder (market_index client_order_index base_amount price : Int)
      (is_ask : Int) (order_type time_in_force : Nat) (reduce_only : Int)
      (trigger_price order_expiry nonce api_key_index account_index : Int)
  | SignCreateGroupedOrders (grouping_type : Nat) (orders : List CreateOrderTxReq)
      (orders_len : Nat) (nonce api_key_index account_index : Int)
  | SignCancelOrder (market_index order_index nonce api_key_index account_index : Int)
  | SignWithdraw (asset_index route_type : Int) (amount : Nat)
      (nonce api_key_index account_index : Int)
  | SignCreateSubAccount (nonce api_key_index account_index : Int)
  | SignCancelAllOrders (time_in_force : Nat) (time nonce api_key_index account_index : Int)
  | SignModifyOrder (market_index order_index amount price trigger_price
      nonce api_key_index account_index : Int)
  | SignTransfer (to_account_index asset_index : Int) (from_route_type to_route_type : Nat)
      (amount usdc_fee : Int) (memo : List Nat) (nonce api_key_index account_index : Int)
  | SignCreatePublicPool (operator_fee initial_total_shares min_operator_share_rate
      nonce api_key_index account_index : Int)
  | SignUpdatePublicPool (public_pool_index status operator_fee min_operator_share_rate
      nonce api_key_index account_index : Int)
  | SignMintShares (public_pool_index share_amount nonce api_key_index account_index : Int)
  | SignBurnShares (public_pool_index share_amount nonce api_key_index account_index : Int)
  | SignUpdateLeverage (market_index initial_margin_fraction margin_mode
      nonce api_key_index account_index : Int)
  | SignUpdateMargin (market_index usdc_amount direction
      nonce api_key_index account_index : Int)
deriving DecidableEq, Repr

/-- Performs one engine call and decodes its `SignedTxResponse`, recording the
call; the tail of every arm of `FFISigner::get_tx_data` (src/signer/ffi.rs:229). -/
def runEngine (engine : EngineCall → SignedTxResponse) (call : EngineCall) :
    Except LighterError String × List EngineCall :=
  ((parse_signed_tx_response (engine call)).1, [call])

/-- Embeds `FFISigner::get_tx_data` (src/signer/ffi.rs:62-230): dispatches each
intent to its one engine call with the source's marshalling. The change-pubkey
arm fails locally with "Invalid key" when the key cannot be marshalled as a C
string (interior NUL); the transfer arm fails locally with
"Invalid memo (non UTF-8)" when the memo bytes are not valid UTF-8, then with
"Invalid memo" when the decoded memo contains a NUL byte — in both cases before
any engine call. Every other field goes to the engine unvalidated. Returns the
result and the engine calls made. -/
def get_tx_data (engine : EngineCall → SignedTxResponse) (s : FFISignerState)
    (data : TxData) (nonce : Int) : Except LighterError String × List EngineCall :=
  match data with
  | TxData.ChangePubKey d =>
    if hasNulChar d.new_pubk then (Except.error (LighterError.Signing "Invalid key"), [])
    else runEngine engine
      (EngineCall.SignChangePubKey d.new_pubk nonce s.api_key_index s.account_index)
  | TxData.CreateOrder d =>
    runEngine engine
      (EngineCall.SignCreateOrder d.market_index d.client_order_index d.base_amount
        d.price (c_int_of_bool d.is_ask) d.order_type d.time_in_force
        (c_int_of_bool d.reduce_only) d.trigger_price d.order_expiry nonce
        s.api_key_index s.account_index)
  | TxData.SignCreateGroupedOrders d =>
    runEngine engine
      (EngineCall.SignCreateGroupedOrders d.grouping_type d.orders d.orders.length
        nonce s.api_key_index s.account_index)
  | TxData.SignCancelOrder d =>
    runEngine engine
      (EngineCall.SignCancelOrder d.market_index d.order_index nonce
        s.api_key_index s.account_index)
  | TxData.SignWithdraw d =>
    runEngine engine
      (EngineCall.SignWithdraw d.asset_index d.route_type d.amount nonce
        s.api_key_index s.account_index)
  | TxData.SignCreateSubaccount =>
    runEngine engine
      (EngineCall.SignCreateSubAccount nonce s.api_key_index s.account_index)
  | TxData.SignCancelAllOrders d =>
    runEngine engine
      (EngineCall.SignCancelAllOrders d.time_in_force d.time nonce
        s.api_key_index s.account_index)
  | TxData.SignModifyOrder d =>
    runEngine engine
      (EngineCall.SignModifyOrder d.market_index d.order_index d.amount d.price
        d.trigger_price nonce s.api_key_index s.account_index)
  | TxData.SignTransfer d =>
    if validUtf8 d.memo then
      if d.memo.contains 0 then (Except.error (LighterError.Signing "Invalid memo"), [])
      else runEngine engine
        (EngineCall.SignTransfer d.to_account_index d.asset_index d.from_route_type
          d.to_route_type d.amount d.usdc_fee d.memo nonce
          s.api_key_index s.account_index)
    else (Except.error (LighterError.Generic "Invalid memo (non UTF-8)"), [])
  | TxData.SignCreatePublicPool d =>
    runEngine engine
      (EngineCall.SignCreatePublicPool d.operator_fee d.initial_total_shares
        d.min_operator_share_rate nonce s.api_key_index s.account_index)
  | TxData.SignUpdatePublicPool d =>
    runEngine engine
      (EngineCall.SignUpdatePublicPool d.public_pool_index d.status d.operator_fee
        d.min_operator_share_rate nonce s.api_key_index s.account_index)
  | TxData.SignMintShares d =>
    runEngine engine
      (EngineCall.SignMintShares d.public_pool_index d.share_amount nonce
        s.api_key_index s.account_index)
  | TxData.SignBurnShares d =>
    runEngine engine
      (EngineCall.SignBurnShares d.public_pool_index d.share_amount nonce
        s.api_key_index s.account_index)
  | TxData.SignUpdateLeverage d =>
    runEngine engine
      (EngineCall.SignUpdateLeverage d.market_index d.initial_margin_fraction
        d.margin_mode nonce s.api_key_index s.account_index)
  | TxData.SignUpdateMargin d =>
    runEngine engine
      (EngineCall.SignUpdateMargin d.market_index d.usdc_amount d.direction nonce
        s.api_key_index s.account_index)

/-- A JSON document, mirroring `serde_json::Value`; objects are association
lists of fields. -/
inductive Json where
  | null
  | bool (b : Bool)
  | num (n : Int)
  | str (s : String)
  | arr (xs : List Json)
  | obj (fields : List (String × Json))
deriving Repr

mutual

/-- Serializes a JSON document, mirroring `serde_json::to_string` on a `Value`
(which never fails); claims about the payload are stated through the serialized
document's fields. -/
def Json.render : Json → String
  | Json.null => "null"
  | Json.bool b => if b then "true" else "false"
  | Json.num n => toString n
  | Json.str s => "\"" ++ s ++ "\""
  | Json.arr xs => "[" ++ Json.renderArr xs ++ "]"
  | Json.obj fs => "\x7b" ++ Json.renderObj fs ++ "\x7d"

/-- Serializes the elements of a JSON array, comma separated. -/
def Json.renderArr : List Json → String
  | [] => ""
  | [x] => Json.render x
  | x :: xs => Json.render x ++ "," ++ Json.renderArr xs

/-- Serializes the fields of a JSON object, comma separated. -/
def Json.renderObj : List (String × Json) → String
  | [] => ""
  | [(k, v)] => "\"" ++ k ++ "\":" ++ Json.render v
  | (k, v) :: fs => "\"" ++ k ++ "\":" ++ Json.render v ++ "," ++ Json.renderObj fs

end

/-- Looks a key up in a JSON document: the field's value on an object that has
it, `none` otherwise — mirroring `Value` indexing, which yields `Null` for
non-objects and missing keys. -/
def Json.lookupKey (j : Json) (key : String) : Option Json :=
  match j with
  | Json.obj fs => fs.lookup key
  | _ => none

/-- Embeds `tx_json["MessageToSign"].as_str()`-style access: the string content
of the given field when it is a string, `none` otherwise. -/
def Json.getStr (j : Json) (key : String) : Option String :=
  match j.lookupKey key with
  | some (Json.str s) => some s
  | _ => none

/-- Removes every field with the given key from an object field list, mirroring
the map `remove` on parsed JSON (whose keys are unique). -/
def objRemove (fs : List (String × Json)) (key : String) : List (String × Json) :=
  fs.filter (fun p => p.1 != key)

/-- Stores a value under a key in an object field list, mirroring the map
`insert` on parsed JSON. -/
def objSet (fs : List (String × Json)) (key : String) (v : Json) : List (String × Json) :=
  objRemove fs key ++ [(key, v)]

/-- The payload rewrite of `Signer::sign_tx_data` (src/signer/mod.rs:182-186):
on an object, remove the `MessageToSign` field and insert the signature under
`L1Sig`; any other document is left unchanged (the source's
`if let Some(obj) = tx_json.as_object_mut()`). -/
def Json.withL1Sig (j : Json) (sig : String) : Json :=
  match j with
  | Json.obj fs => Json.obj (objSet (objRemove fs "MessageToSign") "L1Sig" (Json.str sig))
  | other => other

/-- Whether a character is a lowercase hexadecimal digit (a decimal digit or a
letter from a to f), by character code. -/
def isHexDigitChar (c : Char) : Bool :=
  (48 ≤ c.toNat && c.toNat ≤ 57) || (97 ≤ c.toNat && c.toNat ≤ 102)

/-- The lowercase hexadecimal digit of a nibble, by character code: 48 is the
code of the zero digit and 87 + 10 the code of the letter a. -/
def hexDigit (n : Nat) : Char :=
  if n % 16 < 10 then Char.ofNat (48 + n % 16) else Char.ofNat (87 + n % 16)

/-- Embeds `hex::encode` over signature bytes: two lowercase hex digits per
byte, high nibble first. -/
def hexEncode (bs : List Nat) : String :=
  String.mk (bs.foldr (fun b acc => hexDigit (b / 16 % 16) :: hexDigit (b % 16) :: acc) [])

/-- The configured secondary (eth) signing key, modelled by what the signer
does with it: `sign_hash` is the composite `sign_hash_sync(eip191_hash_message(m))`
of `alloy`, an externally defined hash-then-sign map from the message to the
raw signature bytes, which may fail. -/
structure EthKey where
  sign_hash : String → Except String (List Nat)

/-- Embeds `Signer::sign_message` (src/signer/mod.rs:198-207): fails with the
missing-signer-key error when no eth key is configured, propagates a signing
failure, and otherwise returns `"0x"` followed by the hex-encoded signature
bytes. -/
def sign_message (eth : Option EthKey) (message : String) : Except LighterError String :=
  match eth with
  | none => Except.error (LighterError.Signing "`eth_private_key` is not set")
  | some k =>
    match k.sign_hash message with
    | Except.error e => Except.error (LighterError.Signing e)
    | Except.ok bytes => Except.ok ("0x" ++ hexEncode bytes)

/-- Embeds `TxInfoData` (src/signer/data.rs:10-13): the raw message and the
derived signature surfaced to the caller. -/
structure TxInfoData where
  message : String
  signature : String
deriving DecidableEq, Repr

/-- Embeds `TxInfo` (src/signer/data.rs:4-7): the JSON payload string and the
optional secondary-signature data. -/
structure TxInfo where
  data : Option TxInfoData
  payload : String
deriving DecidableEq, Repr

/-- The observable outcome of a call that may panic: either a crash (an
`unwrap` on `Err`/`None`) or a returned value. -/
inductive Outcome (α : Type) where
  | crash
  | ok (a : α)
deriving Repr

/-- Embeds `Signer::sign_tx_data` (src/signer/mod.rs:167-196) downstream of the
engine call. `from_str` models `serde_json::from_str::<Value>`, returning
`none` exactly on documents it rejects; the source unwraps that result, so a
rejected payload is a crash. On a parsed payload: when no string
`MessageToSign` field is present the serialized document is the envelope; when
one is present, `sign_message` signs it (propagating its error), the payload is
rewritten by `Json.withL1Sig`, and message and signature are surfaced in
`TxInfo.data`. -/
def sign_tx_data (eth : Option EthKey) (from_str : String → Option Json)
    (tx_body_result : Except LighterError String) : Outcome (Except LighterError TxInfo) :=
  match tx_body_result with
  | Except.error e => Outcome.ok (Except.error e)
  | Except.ok tx_body =>
    match from_str tx_body with
    | none => Outcome.crash
    | some tx_json =>
      match tx_json.getStr "MessageToSign" with
      | none => Outcome.ok (Except.ok { data := none, payload := tx_json.render })
      | some msg =>
        match sign_message eth msg with
        | Except.error e => Outcome.ok (Except.error e)
        | Except.ok sig =>
          Outcome.ok (Except.ok
            { data := some { message := msg, signature := sig },
              payload := (tx_json.withL1Sig sig).render })

/-- The full signing pipeline behind every public `sign_*` method
(src/signer/mod.rs:91-196): `get_tx_data` dispatches the intent to the engine
and `sign_tx_data` post-processes the decoded payload. -/
def Signer.sign (engine : EngineCall → SignedTxResponse) (eth : Option EthKey)
    (from_str : String → Option Json) (s : FFISignerState) (data : TxData)
    (nonce : Int) : Outcome (Except LighterError TxInfo) :=
  sign_tx_data eth from_str (get_tx_data engine s data nonce).1

/-- Modelled from the spec: the local `NonceManager` (src/client/nonce.rs is
not present under src/; only its caller `HttpClient::get_nonce` is). Per the
spec it is "an atomically incremented, process-wide counter scoped to the
identity": one `generate()` returns the current 64-bit counter value and
stores the incremented value, wrapping at 2^64 as a 64-bit integer does. -/
def NonceManager.generate (counter : Nat) : Nat × Nat :=
  (counter, (counter + 1) % 2 ^ 64)

/-- The nonces returned by `n` consecutive `generate()` calls starting from the
given counter state; atomic fetch-and-add makes any set of concurrent calls
equivalent to such a sequence. -/
def nonce_batch : Nat → Nat → List Nat
  | 0, _ => []
  | n + 1, counter =>
    (NonceManager.generate counter).1 :: nonce_batch n (NonceManager.generate counter).2

/-- Embeds `HttpClient::get_nonce` (src/client/http.rs:116-126) over explicit
local-counter state: with a local nonce manager it generates locally; otherwise
it returns the remote "next nonce" query's result. -/
def HttpClient.get_nonce (nonce_manager : Option Nat)
    (remote : Except LighterError Int) : Except LighterError Int × Option Nat :=
  match nonce_manager with
  | some counter =>
    (Except.ok (Int.ofNat (NonceManager.generate counter).1),
      some (NonceManager.generate counter).2)
  | none => (remote, none)

theorem lookup_filter_none {β : Type} (fs : List (String × β)) (k : String)
    (p : String × β → Bool) (h : fs.lookup k = none) : (fs.filter p).lookup k = none := by
  induction fs with
  | nil => rfl
  | cons hd tl ih =>
    simp only [List.lookup] at h
    by_cases hk : k = hd.1
    · simp [hk] at h
    · have hne : (k == hd.1) = false := by simp [hk]
      simp only [hne] at h
      by_cases hp : p hd
      · simpa [List.filter_cons, hp, List.lookup, hne] using ih h
      · simpa [List.filter_cons, hp] using ih h

theorem lookup_objRemove_self (fs : List (String × Json)) (key : String) :
    (objRemove fs key).lookup key = none := by
  induction fs with
  | nil => rfl
  | cons hd tl ih =>
    by_cases h : hd.1 = key
    · simpa [objRemove, List.filter_cons, h] using ih
    · have hne : (hd.1 != key) = true := by simp [h]
      have hne2 : (key == hd.1) = false := by simp [Ne.symm h]
      simpa [objRemove, List.filter_cons, hne, List.lookup, hne2] using ih

theorem lookup_append_singleton_ne {β : Type} (l : List (String × β)) (key k2 : String)
    (v : β) (h : k2 ≠ key) : (l ++ [(key, v)]).lookup k2 = l.lookup k2 := by
  induction l with
  | nil =>
    have hne : (k2 == key) = false := by simp [h]
    simp [List.lookup, hne]
  | cons hd tl ih =>
    by_cases hk : k2 = hd.1
    · simp [List.lookup, hk]
    · have hne : (k2 == hd.1) = false := by simp [hk]
      simp [List.lookup, hne, ih]

theorem lookup_objSet_self (fs : List (String × Json)) (key : String) (v : Json) :
    (objSet fs key v).lookup key = some v := by
  induction fs with
  | nil => simp [objSet, objRemove, List.lookup]
  | cons hd tl ih =>
    by_cases h : hd.1 = key
    · simpa [objSet, objRemove, List.filter_cons, h] using ih
    · have hne : (hd.1 != key) = true := by simp [h]
      have hne2 : (key == hd.1) = false := by simp [Ne.symm h]
      simpa [objSet, objRemove, List.filter_cons, hne, List.lookup, hne2] using ih

theorem lookup_objSet_of_ne (fs : List (String × Json)) (key k2 : String) (v : Json)
    (h : k2 ≠ key) : (objSet fs key v).lookup k2 = (objRemove fs key).lookup k2 :=
  lookup_append_singleton_ne (objRemove fs key) key k2 v h

theorem withL1Sig_lookup_msg (fs : List (String × Json)) (sig : String) :
    ((Json.obj fs).withL1Sig sig).lookupKey "MessageToSign" = none := by
  have h1 : (objSet (objRemove fs "MessageToSign") "L1Sig" (Json.str sig)).lookup
      "MessageToSign" = (objRemove (objRemove fs "MessageToSign") "L1Sig").lookup
      "MessageToSign" :=
    lookup_objSet_of_ne _ _ _ _ (by decide)
  have h2 : (objRemove (objRemove fs "MessageToSign") "L1Sig").lookup
      "MessageToSign" = none :=
    lookup_filter_none _ _ _ (lookup_objRemove_self fs "MessageToSign")
  simpa [Json.withL1Sig, Json.lookupKey, h1] using h2

theorem withL1Sig_lookup_sig (fs : List (String × Json)) (sig : String) :
    ((Json.obj fs).withL1Sig sig).lookupKey "L1Sig" = some (Json.str sig) := by
  simpa [Json.withL1Sig, Json.lookupKey] using
    lookup_objSet_self (objRemove fs "MessageToSign") "L1Sig" (Json.str sig)

theorem hexDigit_isHex (n : Nat) : isHexDigitChar (hexDigit n) = true := by
  have h : n % 16 < 16 := Nat.mod_lt _ (by decide)
  unfold hexDigit
  generalize hg : n % 16 = m
  rw [hg] at h
  interval_cases m <;> decide

theorem hexEncode_chars (bs : List Nat) :
    ∀ c ∈ (hexEncode bs).toList, isHexDigitChar c = true := by
  induction bs with
  | nil => intro c hc; simp [hexEncode] at hc
  | cons b tl ih =>
    intro c hc
    simp only [hexEncode, List.foldr_cons] at hc
    have hc2 : c ∈ hexDigit (b / 16 % 16) :: hexDigit (b % 16) :: (hexEncode tl).toList := hc
    simp only [List.mem_cons] at hc2
    rcases hc2 with rfl | rfl | h
    · exact hexDigit_isHex _
    · exact hexDigit_isHex _
    · exact ih c h

theorem nonce_batch_eq_map (n : Nat) : ∀ counter : Nat, counter < 2 ^ 64 →
    nonce_batch n counter = (List.range n).map (fun k => (counter + k) % 2 ^ 64) := by
  induction n with
  | zero => intro counter _; rfl
  | succ m ih =>
    intro counter hc
    have hnext : (counter + 1) % 2 ^ 64 < 2 ^ 64 :=
      Nat.mod_lt _ (by decide)
    rw [List.range_succ_eq_map, List.map_cons, List.map_map]
    show counter :: nonce_batch m ((counter + 1) % 2 ^ 64) = _
    congr 1
    · rw [Nat.add_zero, Nat.mod_eq_of_lt hc]
    · rw [ih ((counter + 1) % 2 ^ 64) hnext]
      refine List.map_congr_left ?_
      intro k _
      show ((counter + 1) % 2 ^ 64 + k) % 2 ^ 64 = (counter + (k + 1)) % 2 ^ 64
      rw [Nat.mod_add_mod, Nat.add_assoc, Nat.add_comm 1 k]

/-- Claim C1: every non-null foreign-allocated field of a native-engine result
is released exactly once on every exit path of the parser, the malformed-result
path included. The code violates this: when `err` and `txInfo` are both null,
`parse_signed_tx_response` returns the malformed-result error without freeing a
non-null `txHash` (or `messageToSign`). At the input below the parser frees
nothing although `txHash` is a non-null foreign allocation. -/
theorem C1_malformed_path_leaks :
    parse_signed_tx_response
        { txInfo := none, txHash := some { id := 1, content := "0xhash" },
          messageToSign := none, err := none }
      = (Except.error (LighterError.Signing "Null txInfo in result"), []) ∧
    fieldIds
        { txInfo := none, txHash := some { id := 1, content := "0xhash" },
          messageToSign := none, err := none }
      = [1] ∧
    ¬ releasesEachFieldOnce
        { txInfo := none, txHash := some { id := 1, content := "0xhash" },
          messageToSign := none, err := none } := by
  refine ⟨rfl, rfl, fun h => ?_⟩
  have hlen := h.length_eq
  simp [parse_signed_tx_response, fieldIds, freeOpt] at hlen

/-- Claim C3: decoding an engine result — a non-null error field is
authoritative and fails the operation with a `Signing` error carrying the
engine's message verbatim, discarding any populated success fields; a null
error with a null primary field (`txInfo` / `str_`) fails with the
malformed-result error; otherwise the primary string is extracted and
returned. Stated for both result shapes, `SignedTxResponse` and `StrOrErr`. -/
theorem C3_decode_contract : ∀ (r : SignedTxResponse) (q : StrOrErr),
    (∀ e, r.err = some e →
      (parse_signed_tx_response r).1 = Except.error (LighterError.Signing e.content)) ∧
    (r.err = none → r.txInfo = none →
      (parse_signed_tx_response r).1 =
        Except.error (LighterError.Signing "Null txInfo in result")) ∧
    (∀ t, r.err = none → r.txInfo = some t →
      (parse_signed_tx_response r).1 = Except.ok t.content) ∧
    (∀ e, q.err = some e →
      (parse_result q).1 = Except.error (LighterError.Signing e.content)) ∧
    (q.err = none → q.str_ = none →
      (parse_result q).1 = Except.error (LighterError.Signing "Null result")) ∧
    (∀ s, q.err = none → q.str_ = some s → (parse_result q).1 = Except.ok s.content) := by
  intro r q
  refine ⟨?_, ?_, ?_, ?_, ?_, ?_⟩
  · intro e he; simp [parse_signed_tx_response, he]
  · intro h1 h2; simp [parse_signed_tx_response, h1, h2]
  · intro t h1 h2; simp [parse_signed_tx_response, h1, h2]
  · intro e he; simp [parse_result, he]
  · intro h1 h2; simp [parse_result, h1, h2]
  · intro s h1 h2; simp [parse_result, h1, h2]

/-- Witness for C3 at concrete inputs: a successful `SignedTxResponse` decodes
to its `txInfo` string and an engine-error `StrOrErr` fails with the engine's
message. -/
theorem C3_decode_contract_witness :
    (parse_signed_tx_response
        { txInfo := some { id := 2, content := "tx" }, txHash := none,
          messageToSign := none, err := none }).1 = Except.ok "tx" ∧
    (parse_result { str_ := none, err := some { id := 3, content := "boom" } }).1 =
      Except.error (LighterError.Signing "boom") :=
  ⟨(C3_decode_contract
      { txInfo := some { id := 2, content := "tx" }, txHash := none,
        messageToSign := none, err := none }
      { str_ := none, err := some { id := 3, content := "boom" } }).2.2.1
      { id := 2, content := "tx" } rfl rfl,
   (C3_decode_contract
      { txInfo := some { id := 2, content := "tx" }, txHash := none,
        messageToSign := none, err := none }
      { str_ := none, err := some { id := 3, content := "boom" } }).2.2.2.1
      { id := 3, content := "boom" } rfl⟩

/-- Claim C4: `get_auth_token` returns a cached token unchanged, with no engine
call, whenever the current time is strictly before its expiry; when no valid
cached token exists it calls the engine once with the deadline defaulted to
now + 10 minutes (600 seconds) when the caller passed none, stores the pair of
the token and that deadline (the stored expiry is the requested deadline), and
returns the token. -/
theorem C4_token_cache : ∀ (engine : Int → StrOrErr) (now : Int)
    (st : Option AuthToken) (deadline : Option Int) (t : AuthToken) (token : String),
    (st = some t → now < t.expiration →
      get_auth_token engine now st deadline = (Except.ok t.token, st, [])) ∧
    (cachedValid now st = none →
      (parse_result (engine (deadline.getD (now + 600)))).1 = Except.ok token →
      get_auth_token engine now st deadline =
        (Except.ok token,
          some { token := token, expiration := deadline.getD (now + 600) },
          [deadline.getD (now + 600)])) := by
  intro engine now st deadline t token
  constructor
  · intro hst hlt
    subst hst
    have hexp : t.is_expired now = false := by
      simp only [AuthToken.is_expired]
      have : ¬ t.expiration ≤ now := by omega
      simp [this]
    simp [get_auth_token, cachedValid, hexp]
  · intro hcache hok
    simp [get_auth_token, hcache, create_auth_token_with_expiry, hok]

/-- Witness for C4 at concrete inputs: a token cached with expiry 100 is
returned unchanged at time 50 without an engine call, and with an empty cache
at time 0 the engine is called with the default deadline 600 and the returned
token is stored with expiry 600. -/
theorem C4_token_cache_witness :
    get_auth_token (fun _ => { str_ := some { id := 0, content := "tok" }, err := none })
        50 (some { token := "cached", expiration := 100 }) none
      = (Except.ok "cached", some { token := "cached", expiration := 100 }, []) ∧
    get_auth_token (fun _ => { str_ := some { id := 0, content := "tok" }, err := none })
        0 none none
      = (Except.ok "tok", some { token := "tok", expiration := 600 }, [600]) :=
  ⟨(C4_token_cache (fun _ => { str_ := some { id := 0, content := "tok" }, err := none })
      50 (some { token := "cached", expiration := 100 }) none
      { token := "cached", expiration := 100 } "tok").1 rfl (by decide),
   (C4_token_cache (fun _ => { str_ := some { id := 0, content := "tok" }, err := none })
      0 none none { token := "cached", expiration := 100 } "tok").2 rfl rfl⟩

/-- Claim C5: when the engine's token-issuing call fails during a refresh,
`get_auth_token` returns that error and the cache cell is left exactly as it
was before the call — the previously cached value, if any, remains. -/
theorem C5_failed_refresh : ∀ (engine : Int → StrOrErr) (now : Int)
    (st : Option AuthToken) (deadline : Option Int) (e : LighterError),
    cachedValid now st = none →
    (parse_result (engine (deadline.getD (now + 600)))).1 = Except.error e →
    get_auth_token engine now st deadline = (Except.error e, st, [deadline.getD (now + 600)]) := by
  intro engine now st deadline e hcache herr
  simp [get_auth_token, hcache, create_auth_token_with_expiry, herr]

/-- Witness for C5 at a concrete input: with a token cached with expiry 5, a
refresh at time 10 whose engine call fails returns the engine error and leaves
the expired cached value in place. -/
theorem C5_failed_refresh_witness :
    get_auth_token (fun _ => { str_ := none, err := some { id := 4, content := "down" } })
        10 (some { token := "old", expiration := 5 }) none
      = (Except.error (LighterError.Signing "down"),
          some { token := "old", expiration := 5 }, [610]) :=
  C5_failed_refresh
    (fun _ => { str_ := none, err := some { id := 4, content := "down" } })
    10 (some { token := "old", expiration := 5 }) none
    (LighterError.Signing "down") (by decide) rfl

/-- Counterexample to claim C2 as stated: a signing call is not crash-free for
every string the engine may return as the signed payload. When the engine call
succeeds with the payload string "oops" and the JSON parser rejects it,
`sign_tx_data` unwraps the parse failure and crashes instead of returning a
typed error. -/
theorem C2_counterexample :
    Signer.sign
        (fun _ => { txInfo := some { id := 0, content := "oops" }, txHash := none,
                    messageToSign := none, err := none })
        none (fun _ => none)
        { url := [], private_key := [], chain_id := 300, api_key_index := 0,
          account_index := 0 }
        TxData.SignCreateSubaccount 1
      = Outcome.crash := rfl

/-- Claim C2 as amended: for every intent and every engine behavior, provided
every successful engine payload is accepted by the JSON parser, a signing call
terminates returning either a complete envelope or exactly one typed error —
never a crash and never a partial-success state. (The unamended claim fails
because the source unwraps the JSON parse of the engine payload.) -/
theorem C2_envelope_or_error : ∀ (engine : EngineCall → SignedTxResponse)
    (eth : Option EthKey) (from_str : String → Option Json) (s : FFISignerState)
    (data : TxData) (nonce : Int),
    (∀ body, (get_tx_data engine s data nonce).1 = Except.ok body →
      (from_str body).isSome = true) →
    (∃ t, Signer.sign engine eth from_str s data nonce = Outcome.ok (Except.ok t)) ∨
    (∃ e, Signer.sign engine eth from_str s data nonce = Outcome.ok (Except.error e)) := by
  intro engine eth from_str s data nonce hparse
  cases hr : (get_tx_data engine s data nonce).1 with
  | error e => exact Or.inr ⟨e, by simp [Signer.sign, sign_tx_data, hr]⟩
  | ok body =>
    have hsome := hparse body hr
    cases hf : from_str body with
    | none => rw [hf] at hsome; simp at hsome
    | some tx_json =>
      cases hm : tx_json.getStr "MessageToSign" with
      | none =>
        exact Or.inl ⟨{ data := none, payload := tx_json.render },
          by simp [Signer.sign, sign_tx_data, hr, hf, hm]⟩
      | some msg =>
        cases hs : sign_message eth msg with
        | error e =>
          exact Or.inr ⟨e, by simp [Signer.sign, sign_tx_data, hr, hf, hm, hs]⟩
        | ok sig =>
          exact Or.inl
            ⟨{ data := some { message := msg, signature := sig },
               payload := (tx_json.withL1Sig sig).render },
             by simp [Signer.sign, sign_tx_data, hr, hf, hm, hs]⟩

/-- Witness for the amended C2 at concrete inputs: an engine returning the
payload "null", with a parser that accepts every document, yields a complete
envelope or a typed error. -/
theorem C2_envelope_or_error_witness :
    (∃ t, Signer.sign
        (fun _ => { txInfo := some { id := 0, content := "null" }, txHash := none,
                    messageToSign := none, err := none })
        none (fun _ => some Json.null)
        { url := [], private_key := [], chain_id := 300, api_key_index := 0,
          account_index := 0 }
        TxData.SignCreateSubaccount 1 = Outcome.ok (Except.ok t)) ∨
    (∃ e, Signer.sign
        (fun _ => { txInfo := some { id := 0, content := "null" }, txHash := none,
                    messageToSign := none, err := none })
        none (fun _ => some Json.null)
        { url := [], private_key := [], chain_id := 300, api_key_index := 0,
          account_index := 0 }
        TxData.SignCreateSubaccount 1 = Outcome.ok (Except.error e)) :=
  C2_envelope_or_error
    (fun _ => { txInfo := some { id := 0, content := "null" }, txHash := none,
                messageToSign := none, err := none })
    none (fun _ => some Json.null)
    { url := [], private_key := [], chain_id := 300, api_key_index := 0,
      account_index := 0 }
    TxData.SignCreateSubaccount 1 (fun _ _ => rfl)

/-- Claim C6: for every intent whose decoded engine payload contains a
`MessageToSign` string, if no secondary (eth) signing key was configured then
the signing call fails with the missing-signer-key error and produces no
envelope — the result is exactly that one error. -/
theorem C6_missing_signer_key : ∀ (engine : EngineCall → SignedTxResponse)
    (from_str : String → Option Json) (s : FFISignerState) (data : TxData)
    (nonce : Int) (body : String) (tx_json : Json) (msg : String),
    (get_tx_data engine s data nonce).1 = Except.ok body →
    from_str body = some tx_json →
    tx_json.getStr "MessageToSign" = some msg →
    Signer.sign engine none from_str s data nonce =
      Outcome.ok (Except.error (LighterError.Signing "`eth_private_key` is not set")) := by
  intro engine from_str s data nonce body tx_json msg hr hf hm
  simp [Signer.sign, sign_tx_data, hr, hf, hm, sign_message]

/-- Witness for C6 at a concrete input: an engine payload decoding to an object
with a `MessageToSign` string, signed with no configured eth key, fails with
the missing-signer-key error. -/
theorem C6_missing_signer_key_witness :
    Signer.sign
        (fun _ => { txInfo := some { id := 0, content := "p" }, txHash := none,
                    messageToSign := none, err := none })
        none (fun _ => some (Json.obj [("MessageToSign", Json.str "m")]))
        { url := [], private_key := [], chain_id := 300, api_key_index := 0,
          account_index := 0 }
        TxData.SignCreateSubaccount 1
      = Outcome.ok (Except.error (LighterError.Signing "`eth_private_key` is not set")) :=
  C6_missing_signer_key
    (fun _ => { txInfo := some { id := 0, content := "p" }, txHash := none,
                messageToSign := none, err := none })
    (fun _ => some (Json.obj [("MessageToSign", Json.str "m")]))
    { url := [], private_key := [], chain_id := 300, api_key_index := 0,
      account_index := 0 }
    TxData.SignCreateSubaccount 1 "p" (Json.obj [("MessageToSign", Json.str "m")]) "m"
    rfl rfl (by decide)

/-- Claim C7: when secondary signing applies — the decoded engine payload is an
object with a `MessageToSign` string and a secondary key is configured (and its
signing succeeds) — the returned envelope's payload is the serialization of the
payload object with the `MessageToSign` field removed and a signature inserted
under the fixed key `L1Sig`, the signature is a 0x-prefixed string of
hexadecimal digits, and both the raw message and the signature are surfaced to
the caller alongside the payload. -/
theorem C7_secondary_signing : ∀ (engine : EngineCall → SignedTxResponse)
    (from_str : String → Option Json) (s : FFISignerState) (data : TxData)
    (nonce : Int) (body : String) (fields : List (String × Json)) (msg : String)
    (k : EthKey) (bytes : List Nat),
    (get_tx_data engine s data nonce).1 = Except.ok body →
    from_str body = some (Json.obj fields) →
    (Json.obj fields).getStr "MessageToSign" = some msg →
    k.sign_hash msg = Except.ok bytes →
    Signer.sign engine (some k) from_str s data nonce =
      Outcome.ok (Except.ok
        { data := some { message := msg, signature := "0x" ++ hexEncode bytes },
          payload := ((Json.obj fields).withL1Sig ("0x" ++ hexEncode bytes)).render }) ∧
    ((Json.obj fields).withL1Sig ("0x" ++ hexEncode bytes)).lookupKey "MessageToSign"
      = none ∧
    ((Json.obj fields).withL1Sig ("0x" ++ hexEncode bytes)).lookupKey "L1Sig"
      = some (Json.str ("0x" ++ hexEncode bytes)) ∧
    ∃ digits, "0x" ++ hexEncode bytes = "0x" ++ digits ∧
      ∀ c ∈ digits.toList, isHexDigitChar c = true := by
  intro engine from_str s data nonce body fields msg k bytes hr hf hm hs
  refine ⟨?_, withL1Sig_lookup_msg fields _, withL1Sig_lookup_sig fields _,
    hexEncode bytes, rfl, hexEncode_chars bytes⟩
  simp [Signer.sign, sign_tx_data, hr, hf, hm, sign_message, hs]

/-- Witness for C7 at a concrete input: signing a payload object holding the
message "m" with a key whose signature bytes are [255, 26] yields the envelope
whose payload object carries `L1Sig "0xff1a"` instead of `MessageToSign`, with
message and signature surfaced. -/
theorem C7_secondary_signing_witness :
    Signer.sign
        (fun _ => { txInfo := some { id := 0, content := "p" }, txHash := none,
                    messageToSign := none, err := none })
        (some { sign_hash := fun _ => Except.ok [255, 26] })
        (fun _ => some (Json.obj [("MessageToSign", Json.str "m"), ("a", Json.num 1)]))
        { url := [], private_key := [], chain_id := 300, api_key_index := 0,
          account_index := 0 }
        TxData.SignCreateSubaccount 1
      = Outcome.ok (Except.ok
          { data := some { message := "m", signature := "0x" ++ hexEncode [255, 26] },
            payload := ((Json.obj [("MessageToSign", Json.str "m"), ("a", Json.num 1)]).withL1Sig
              ("0x" ++ hexEncode [255, 26])).render }) :=
  (C7_secondary_signing
    (fun _ => { txInfo := some { id := 0, content := "p" }, txHash := none,
                messageToSign := none, err := none })
    (fun _ => some (Json.obj [("MessageToSign", Json.str "m"), ("a", Json.num 1)]))
    { url := [], private_key := [], chain_id := 300, api_key_index := 0,
      account_index := 0 }
    TxData.SignCreateSubaccount 1 "p" [("MessageToSign", Json.str "m"), ("a", Json.num 1)]
    "m" { sign_hash := fun _ => Except.ok [255, 26] } [255, 26]
    rfl rfl (by decide) rfl).1

/-- Claim C8: a transfer whose 32-byte memo is not valid UTF-8 fails locally
with the encoding error "Invalid memo (non UTF-8)", a transfer whose memo
contains a NUL byte fails locally with "Invalid memo", and a change-pubkey
whose key string cannot be marshalled as a C string fails locally with
"Invalid key" — each before any native-engine call (the recorded call list is
empty). All other validation is deferred: a well-encoded transfer or
change-pubkey performs exactly its one engine call, whose decoded result (an
engine error included) is returned as is. -/
theorem C8_local_encoding_validation : ∀ (engine : EngineCall → SignedTxResponse)
    (s : FFISignerState) (nonce : Int) (d : SignTransferData) (pk : ChangePubKeyData),
    (d.memo.length = 32 → validUtf8 d.memo = false →
      get_tx_data engine s (TxData.SignTransfer d) nonce =
        (Except.error (LighterError.Generic "Invalid memo (non UTF-8)"), [])) ∧
    (d.memo.length = 32 → validUtf8 d.memo = true → d.memo.contains 0 = true →
      get_tx_data engine s (TxData.SignTransfer d) nonce =
        (Except.error (LighterError.Signing "Invalid memo"), [])) ∧
    (hasNulChar pk.new_pubk = true →
      get_tx_data engine s (TxData.ChangePubKey pk) nonce =
        (Except.error (LighterError.Signing "Invalid key"), [])) ∧
    (validUtf8 d.memo = true → d.memo.contains 0 = false →
      get_tx_data engine s (TxData.SignTransfer d) nonce =
        ((parse_signed_tx_response (engine
            (EngineCall.SignTransfer d.to_account_index d.asset_index d.from_route_type
              d.to_route_type d.amount d.usdc_fee d.memo nonce
              s.api_key_index s.account_index))).1,
          [EngineCall.SignTransfer d.to_account_index d.asset_index d.from_route_type
            d.to_route_type d.amount d.usdc_fee d.memo nonce
            s.api_key_index s.account_index])) ∧
    (hasNulChar pk.new_pubk = false →
      get_tx_data engine s (TxData.ChangePubKey pk) nonce =
        ((parse_signed_tx_response (engine
            (EngineCall.SignChangePubKey pk.new_pubk nonce
              s.api_key_index s.account_index))).1,
          [EngineCall.SignChangePubKey pk.new_pubk nonce
            s.api_key_index s.account_index])) := by
  intro engine s nonce d pk
  refine ⟨?_, ?_, ?_, ?_, ?_⟩
  · intro _ hbad; simp [get_tx_data, hbad]
  · intro _ hok hnul
    have h0 : 0 ∈ d.memo := by simpa using hnul
    simp [get_tx_data, hok, h0]
  · intro hnul; simp [get_tx_data, hnul]
  · intro hok hnul
    have h0 : 0 ∉ d.memo := by simpa using hnul
    simp [get_tx_data, runEngine, hok, h0]
  · intro hnul; simp [get_tx_data, runEngine, hnul]

/-- Witness for C8 at concrete inputs: a 32-byte memo starting with the byte
255 is rejected as non-UTF-8 with no engine call; a 32-byte ASCII memo with an
embedded NUL is rejected as "Invalid memo" with no engine call; a pubkey string
holding a NUL character is rejected as "Invalid key" with no engine call. -/
theorem C8_local_encoding_validation_witness :
    get_tx_data (fun _ => { txInfo := none, txHash := none, messageToSign := none, err := none })
        { url := [], private_key := [], chain_id := 300, api_key_index := 0,
          account_index := 0 }
        (TxData.SignTransfer
          { to_account_index := 1, asset_index := 1, from_route_type := 0,
            to_route_type := 0, amount := 100, usdc_fee := 2,
            memo := 255 :: List.replicate 31 65 }) 1
      = (Except.error (LighterError.Generic "Invalid memo (non UTF-8)"), []) ∧
    get_tx_data (fun _ => { txInfo := none, txHash := none, messageToSign := none, err := none })
        { url := [], private_key := [], chain_id := 300, api_key_index := 0,
          account_index := 0 }
        (TxData.SignTransfer
          { to_account_index := 1, asset_index := 1, from_route_type := 0,
            to_route_type := 0, amount := 100, usdc_fee := 2,
            memo := 0 :: List.replicate 31 65 }) 1
      = (Except.error (LighterError.Signing "Invalid memo"), []) ∧
    get_tx_data (fun _ => { txInfo := none, txHash := none, messageToSign := none, err := none })
        { url := [], private_key := [], chain_id := 300, api_key_index := 0,
          account_index := 0 }
        (TxData.ChangePubKey { new_pubk := [ 'a', Char.ofNat 0 ] }) 1
      = (Except.error (LighterError.Signing "Invalid key"), []) :=
  ⟨(C8_local_encoding_validation
      (fun _ => { txInfo := none, txHash := none, messageToSign := none, err := none })
      { url := [], private_key := [], chain_id := 300, api_key_index := 0,
        account_index := 0 } 1
      { to_account_index := 1, asset_index := 1, from_route_type := 0,
        to_route_type := 0, amount := 100, usdc_fee := 2,
        memo := 255 :: List.replicate 31 65 }
      { new_pubk := [ 'a', Char.ofNat 0 ] }).1 (by decide) (by decide),
   (C8_local_encoding_validation
      (fun _ => { txInfo := none, txHash := none, messageToSign := none, err := none })
      { url := [], private_key := [], chain_id := 300, api_key_index := 0,
        account_index := 0 } 1
      { to_account_index := 1, asset_index := 1, from_route_type := 0,
        to_route_type := 0, amount := 100, usdc_fee := 2,
        memo := 0 :: List.replicate 31 65 }
      { new_pubk := [ 'a', Char.ofNat 0 ] }).2.1 (by decide) (by decide) (by decide),
   (C8_local_encoding_validation
      (fun _ => { txInfo := none, txHash := none, messageToSign := none, err := none })
      { url := [], private_key := [], chain_id := 300, api_key_index := 0,
        account_index := 0 } 1
      { to_account_index := 1, asset_index := 1, from_route_type := 0,
        to_route_type := 0, amount := 100, usdc_fee := 2,
        memo := 0 :: List.replicate 31 65 }
      { new_pubk := [ 'a', Char.ofNat 0 ] }).2.2.1 (by decide)⟩

/-- Claim C9: in local mode, any number of concurrent `generate()` calls
against the same identity — which the atomic fetch-and-add serializes into
consecutive counter states — return pairwise distinct nonces, for any batch of
at most 2^64 calls (so in particular for any batch of at most 10,000). -/
theorem C9_nonce_distinct : ∀ (n counter : Nat), counter < 2 ^ 64 → n ≤ 2 ^ 64 →
    (nonce_batch n counter).Nodup := by
  intro n counter hc hn
  rw [nonce_batch_eq_map n counter hc]
  refine List.Nodup.map_on ?_ (List.nodup_range n)
  intro i hi j hj hij
  rw [List.mem_range] at hi hj
  have hmod : i % 2 ^ 64 = j % 2 ^ 64 := by
    have h1 : counter + i ≡ counter + j [MOD 2 ^ 64] := hij
    exact h1.add_left_cancel' counter
  rwa [Nat.mod_eq_of_lt (lt_of_lt_of_le hi hn),
    Nat.mod_eq_of_lt (lt_of_lt_of_le hj hn)] at hmod

/-- Witness for C9 at a concrete input: three generate() calls from counter
state 5 return the pairwise distinct nonces 5, 6, 7. -/
theorem C9_nonce_distinct_witness : (nonce_batch 3 5).Nodup :=
  C9_nonce_distinct 3 5 (by decide) (by decide)

/-- Claim C10: `FFISigner::new` stores the configured API private key with any
leading "0x" prefix removed, so two configurations identical except for a
leading "0x" on the key produce the same construction result — the same signer
state and the same `CreateClient` engine inputs; and the chain discriminator of
a constructed signer is fixed from the base url alone: 304 when the url
contains "mainnet" and 300 otherwise. -/
theorem C10_construction : ∀ (engine : CreateClientCall → Option String)
    (url key : List Char) (api_key_index account_index : Int),
    FFISigner.new engine url ( '0' :: 'x' :: key) api_key_index account_index =
      FFISigner.new engine url key api_key_index account_index ∧
    (∀ s calls, FFISigner.new engine url key api_key_index account_index =
        (Except.ok s, calls) →
      s.private_key = trim_start_matches_0x key ∧
      s.chain_id = (if contains_sub ("mainnet".toList) url then 304 else 300) ∧
      s.url = url ∧ s.api_key_index = api_key_index ∧
      s.account_index = account_index) := by
  intro engine url key a b
  constructor
  · have htrim : trim_start_matches_0x ( '0' :: 'x' :: key) = trim_start_matches_0x key :=
      rfl
    simp [FFISigner.new, htrim]
  · intro s calls h
    simp only [FFISigner.new] at h
    split at h
    · exact absurd (congrArg Prod.fst h) (by simp)
    · injection h with h1 h2
      injection h1 with h3
      subst h3
      exact ⟨rfl, rfl, rfl, rfl, rfl⟩

/-- Witness for C10 at a concrete input: constructing against a mainnet url
with the key "0xabc" succeeds with the stored key "abc" and chain id 304. -/
theorem C10_construction_witness :
    FFISigner.new (fun _ => none) ("https://mainnet.zklighter.elliot.ai".toList)
        ("0xabc".toList) 3 2 =
      FFISigner.new (fun _ => none) ("https://mainnet.zklighter.elliot.ai".toList)
        ("abc".toList) 3 2 ∧
    ("abc".toList = trim_start_matches_0x ("abc".toList) ∧
      (304 : Int) = (if contains_sub ("mainnet".toList)
        ("https://mainnet.zklighter.elliot.ai".toList) then 304 else 300)) := by
  have h := C10_construction (fun _ => none)
    ("https://mainnet.zklighter.elliot.ai".toList) ("abc".toList) 3 2
  refine ⟨h.1, ?_⟩
  have h2 := h.2
    { url := "https://mainnet.zklighter.elliot.ai".toList, private_key := "abc".toList,
      chain_id := 304, api_key_index := 3, account_index := 2 }
    [{ url := "https://mainnet.zklighter.elliot.ai".toList, private_key := "abc".toList,
       chain_id := 304, api_key_index := 3, account_index := 2 }]
    (by rfl)
  exact ⟨h2.1, h2.2.1⟩

end Lighter
